import Mathlib

/-!
Shallow embedding of the core of the log-watcher repository
(`error_handler.py`, `log_file_manager.py`, `watcher_models.py`).

Timestamps (`time.time()` values) are modelled as natural numbers; the
code only compares them and adds fixed offsets, so the ordered-semiring
structure of `Nat` captures everything the claims use.  Backoff delays
are modelled as rationals, since the Python code computes them with the
exact values `1.0 * 2 ** (attempt - 1)` and `30.0`, all of which are
exactly representable.  Python dictionaries are modelled as association
lists with an insert-or-replace update, and `os.stat` results as an
`Option (Nat × Nat)` (inode, size), `none` meaning the stat raised.
-/

namespace LogWatcher

/-- `watcher_models.RecoveryAction`. -/
inductive RecoveryAction where
  | RETRY_IMMEDIATE
  | RETRY_WITH_BACKOFF
  | RESTART_COMPONENT
  | CIRCUIT_BREAKER
  | FATAL_EXIT
deriving DecidableEq, Repr

/-- `watcher_models.ErrorContext` (the `stack_trace` field is omitted:
it is write-only debug data never read by any code path). -/
structure ErrorContext where
  error_type : String
  component : String
  attempt_count : Nat
  last_attempt_time : Nat
  error_message : String
deriving DecidableEq, Repr

/-- `watcher_models.CircuitBreakerState` with its dataclass defaults. -/
structure CircuitBreakerState where
  is_open : Bool := false
  failure_count : Nat := 0
  last_failure_time : Nat := 0
  last_success_time : Nat := 0
  next_attempt_time : Nat := 0
deriving DecidableEq, Repr

/-- Association-list lookup (Python `dict.__getitem__` / `dict.get`). -/
def lookupA {α : Type} : List (String × α) → String → Option α
  | [], _ => none
  | (k', v) :: t, k => if k' = k then some v else lookupA t k

/-- Association-list insert-or-replace (Python `dict.__setitem__`). -/
def updA {α : Type} : List (String × α) → String → α → List (String × α)
  | [], k, v => [(k, v)]
  | (k', v') :: t, k, v => if k' = k then (k, v) :: t else (k', v') :: updA t k v

/-- Python `str.startswith`, modelled as character-list prefix. -/
def strStarts (s p : String) : Bool := p.data.isPrefixOf s.data

/-- The mutable state of an `ErrorHandler` together with the breaker map
held by its `StateManager`: `self.error_contexts` keyed by the string
`f"{component}_{error_type}"`, and `state.circuit_breaker_states`. -/
structure EHState where
  error_contexts : List (String × ErrorContext)
  breakers : List (String × CircuitBreakerState)
deriving DecidableEq, Repr

/-- `error_handler.ErrorHandler.max_retries`. -/
def max_retries : List (String × Nat) :=
  [("file_operation", 5), ("stream_error", 3), ("permission_error", 10), ("network_error", 3)]

/-- `self.max_retries.get(error_type, 3)`. -/
def max_attempts_for (error_type : String) : Nat :=
  (lookupA max_retries error_type).getD 3

def base_backoff : ℚ := 1
def max_backoff : ℚ := 30
def cb_failure_threshold : Nat := 5
def cb_timeout : Nat := 60

/-- `StateManager.get_circuit_breaker`: returns the entry for
`component`, inserting a default (closed) breaker first when absent.
The returned breaker is the one stored in the map (Python returns a
reference into the dict). -/
def get_circuit_breaker (st : EHState) (component : String) :
    CircuitBreakerState × EHState :=
  match lookupA st.breakers component with
  | some cb => (cb, st)
  | none =>
      let cb : CircuitBreakerState := {}
      (cb, { st with breakers := updA st.breakers component cb })

/-- `ErrorHandler._get_recovery_action`, as a function of the error type
and the (already incremented) `context.attempt_count`. -/
def get_recovery_action (error_type : String) (attempt_count : Nat) : RecoveryAction :=
  if attempt_count > max_attempts_for error_type then
    if error_type = "stream_error" ∨ error_type = "file_not_found" then
      RecoveryAction.RESTART_COMPONENT
    else
      RecoveryAction.FATAL_EXIT
  else if error_type = "stream_error" then
    (if attempt_count = 1 then RecoveryAction.RETRY_IMMEDIATE
     else RecoveryAction.RETRY_WITH_BACKOFF)
  else if error_type = "file_not_found" ∨ error_type = "permission_error" then
    RecoveryAction.RETRY_WITH_BACKOFF
  else if error_type = "network_error" then
    RecoveryAction.RETRY_WITH_BACKOFF
  else
    RecoveryAction.RETRY_WITH_BACKOFF

/-- `ErrorHandler.get_backoff_delay`.  The code is called with
`attempt ≥ 1`; `attempt - 1` is natural subtraction, which agrees with
Python on that domain. -/
def get_backoff_delay (attempt : Nat) : ℚ :=
  min (base_backoff * 2 ^ (attempt - 1)) max_backoff

/-- `ErrorHandler._count_recent_failures`: the code uses the raw
cumulative attempt count as a proxy for recent failures. -/
def count_recent_failures (ctx : ErrorContext) (_now : Nat) : Nat :=
  ctx.attempt_count

/-- `ErrorHandler._should_circuit_break`, returning the decision and the
breaker object as the code leaves it (the Python code mutates the
breaker in place; the caller's map holds the same object). -/
def should_circuit_break (cb : CircuitBreakerState) (ctx : ErrorContext) (now : Nat) :
    Bool × CircuitBreakerState :=
  if cb.is_open then
    if now ≥ cb.next_attempt_time then
      (false, { cb with is_open := false })
    else
      (true, cb)
  else if ctx.attempt_count ≥ cb_failure_threshold then
    let recent := count_recent_failures ctx now
    if recent ≥ cb_failure_threshold then
      (true, { cb with is_open := true, failure_count := recent,
                       last_failure_time := now, next_attempt_time := now + cb_timeout })
    else
      (false, cb)
  else
    (false, cb)

/-- `ErrorHandler.handle_error`, taken after `classify_error`: the first
argument past the state is the classified `error_type`, then the
component, the error message and the current time.  Mirrors the code:
get-or-create the context, increment its attempt count, stamp time and
message, consult the circuit breaker (whose in-place mutation lands in
the map), and otherwise fall through to `_get_recovery_action`. -/
def handle_error (st : EHState) (error_type component error_message : String)
    (now : Nat) : RecoveryAction × EHState :=
  let key := component ++ "_" ++ error_type
  let ctx0 := (lookupA st.error_contexts key).getD
    { error_type := error_type, component := component, attempt_count := 0,
      last_attempt_time := 0, error_message := error_message }
  let ctx := { ctx0 with attempt_count := ctx0.attempt_count + 1,
                         last_attempt_time := now, error_message := error_message }
  let st1 := { st with error_contexts := updA st.error_contexts key ctx }
  let (cb, st2) := get_circuit_breaker st1 component
  let (broke, cb') := should_circuit_break cb ctx now
  let st3 := { st2 with breakers := updA st2.breakers component cb' }
  if broke then (RecoveryAction.CIRCUIT_BREAKER, st3)
  else (get_recovery_action error_type ctx.attempt_count, st3)

/-- `ErrorHandler.record_success`: closes the breaker (only when it was
open) and deletes every error context whose key starts with the
component string. -/
def record_success (st : EHState) (component : String) (now : Nat) : EHState :=
  let (cb, st1) := get_circuit_breaker st component
  let cb' := if cb.is_open then
      { cb with is_open := false, failure_count := 0, last_success_time := now }
    else cb
  let st2 := { st1 with breakers := updA st1.breakers component cb' }
  { st2 with error_contexts :=
      st2.error_contexts.filter (fun p => !(strStarts p.1 component)) }

/-- `ErrorHandler.is_circuit_open`.  The method reads the breaker (the
`get_circuit_breaker` call may insert a default entry) and performs no
other mutation; the returned state is the code's net effect. -/
def is_circuit_open (st : EHState) (component : String) (now : Nat) :
    Bool × EHState :=
  let (cb, st') := get_circuit_breaker st component
  if cb.is_open ∧ now ≥ cb.next_attempt_time then (false, st')
  else (cb.is_open, st')

/-! ## State store (`watcher_models.StateManager`) -/

/-- An opaque-to-the-core JSON dictionary (the entries of
`error_rate_window`), modelled as string key/value pairs. -/
abbrev RequestData := List (String × String)

/-- `watcher_models.WatcherState` as it lives in memory.  After
`__post_init__` the three container fields are never `None`, so they are
modelled as plain containers. -/
structure WatcherState where
  current_pool : Option String
  last_alert_times : List (String × Nat)
  error_rate_window : List RequestData
  file_position : Nat
  file_inode : Option Nat
  circuit_breaker_states : List (String × CircuitBreakerState)
  last_health_check : Nat
  startup_time : Nat
deriving DecidableEq, Repr

/-- The JSON object written by `save_state` / accepted by `load_state`:
the field layout of `WatcherState`, with the container fields allowed to
be `null` (JSON can hold a `null` that `WatcherState(**data)` accepts
and `__post_init__` then replaces). -/
structure PersistedState where
  current_pool : Option String
  last_alert_times : Option (List (String × Nat))
  error_rate_window : Option (List RequestData)
  file_position : Nat
  file_inode : Option Nat
  circuit_breaker_states : Option (List (String × CircuitBreakerState))
  last_health_check : Nat
  startup_time : Nat
deriving DecidableEq, Repr

/-- `WatcherState()` with all defaults: the state `StateManager.__init__`
installs before `load_state` runs.  `__post_init__` stamps
`startup_time` with the current time because the default is `0`. -/
def default_state (now : Nat) : WatcherState :=
  { current_pool := none, last_alert_times := [], error_rate_window := [],
    file_position := 0, file_inode := none, circuit_breaker_states := [],
    last_health_check := 0, startup_time := now }

/-- `WatcherState(**data)` followed by `__post_init__`: `None` container
fields become empty containers and a zero `startup_time` becomes the
current time. -/
def watcher_state_of (d : PersistedState) (now : Nat) : WatcherState :=
  { current_pool := d.current_pool,
    last_alert_times := d.last_alert_times.getD [],
    error_rate_window := d.error_rate_window.getD [],
    file_position := d.file_position,
    file_inode := d.file_inode,
    circuit_breaker_states := d.circuit_breaker_states.getD [],
    last_health_check := d.last_health_check,
    startup_time := if d.startup_time = 0 then now else d.startup_time }

/-- The serialization performed by `save_state`: `asdict(self.state)`
with the breaker map converted entry-wise (JSON round-trips every field
value exactly). -/
def persisted_of (s : WatcherState) : PersistedState :=
  { current_pool := s.current_pool,
    last_alert_times := some s.last_alert_times,
    error_rate_window := some s.error_rate_window,
    file_position := s.file_position,
    file_inode := s.file_inode,
    circuit_breaker_states := some s.circuit_breaker_states,
    last_health_check := s.last_health_check,
    startup_time := s.startup_time }

/-- What `load_state` finds at one path: no file, a file whose JSON or
field structure raises during deserialization, or a structurally valid
persisted state. -/
inductive StateFile where
  | missing
  | corrupt
  | valid (d : PersistedState)
deriving DecidableEq, Repr

/-- `StateManager.load_state`: try the primary path then the backup, in
order; the first file that deserializes becomes the state (returning
`true`); every failure is swallowed and the pre-existing state (the
default installed by `__init__`) is kept, returning `false`. -/
def load_state (primary backup : StateFile) (now : Nat) (current : WatcherState) :
    WatcherState × Bool :=
  match primary with
  | StateFile.valid d => (watcher_state_of d now, true)
  | _ =>
      match backup with
      | StateFile.valid d => (watcher_state_of d now, true)
      | _ => (current, false)

/-- `StateManager.__init__`: install the default state, then `load_state`. -/
def state_manager_init (primary backup : StateFile) (now : Nat) :
    WatcherState × Bool :=
  load_state primary backup now (default_state now)

/-! ## File manager (`log_file_manager.LogFileManager`) -/

/-- The outcome of the seek logic in `LogFileManager._ensure_file_open`
once the file exists and `open`/`stat` succeed: the position the handle
was seeked to (`last_position` and the handle's `tell` agree with it),
the `file_position`/`file_inode` recorded in the watcher state by
`update_file_position`, and whether the saved position was resumed. -/
structure OpenResult where
  last_position : Nat
  state_position : Nat
  state_inode : Option Nat
  resumed : Bool
deriving DecidableEq, Repr

/-- The resume decision of `_ensure_file_open`: given the freshly
statted inode and size and the persisted position/inode, seek to the
saved position when the inode matches and the position fits, otherwise
seek to end-of-file. -/
def ensure_file_open (current_inode file_size : Nat)
    (saved_position : Nat) (saved_inode : Option Nat) : OpenResult :=
  if saved_inode = some current_inode ∧ saved_position ≤ file_size then
    { last_position := saved_position, state_position := saved_position,
      state_inode := some current_inode, resumed := true }
  else
    { last_position := file_size, state_position := file_size,
      state_inode := some current_inode, resumed := false }

/-- Python truthiness of `self.current_inode` (an `Optional[int]`):
falsy when `None` or `0`. -/
def inode_truthy : Option Nat → Bool
  | none => false
  | some i => i != 0

/-- `LogFileManager.detect_rotation`.  Arguments: the manager's
`current_path`, whether `os.path.exists` holds for it, the `os.stat`
result (`none` = the stat raised `OSError`/`IOError`), the manager's
`current_inode`, whether `current_file` is open, and the handle's
`tell()` position. -/
def detect_rotation (current_path : Option String) (path_exists : Bool)
    (stat_result : Option (Nat × Nat)) (current_inode : Option Nat)
    (has_file : Bool) (file_pos : Nat) : Bool :=
  if current_path = none ∨ current_path = some "" ∨ path_exists = false then
    true
  else
    match stat_result with
    | none => true
    | some (ino, size) =>
        if inode_truthy current_inode ∧ some ino ≠ current_inode then
          true
        else if has_file ∧ (size : Int) < (file_pos : Int) - 1000 then
          true
        else
          false

/-- One iteration step of the checkpoint logic in
`LogFileManager._read_lines`: after a line of `len` bytes is read, the
new `tell()` offset is recorded as `last_position`, and the position is
pushed to the state manager exactly when `last_position % 50 == 0`. -/
def read_line_offsets (start : Nat) : List Nat → List (Nat × Bool)
  | [] => []
  | len :: rest =>
      let p := start + len
      (p, p % 50 == 0) :: read_line_offsets p rest

/-- Number of checkpoints (`update_file_position` calls) during a run of
`_read_lines` that starts at `start` and reads lines of the given byte
lengths. -/
def checkpoints (start : Nat) (lens : List Nat) : Nat :=
  (read_line_offsets start lens).countP (fun p => p.2)

/-! ## Helper lemmas on association lists -/

theorem lookupA_updA_self {α : Type} (l : List (String × α)) (k : String) (v : α) :
    lookupA (updA l k v) k = some v := by
  induction l with
  | nil => simp [updA, lookupA]
  | cons hd t ih =>
      obtain ⟨k', v'⟩ := hd
      by_cases hk : k' = k <;> simp [updA, lookupA, hk, ih]

theorem lookupA_filter_removed {α : Type} (l : List (String × α)) (c k : String)
    (h : strStarts k c = true) :
    lookupA (l.filter (fun p => !(strStarts p.1 c))) k = none := by
  induction l with
  | nil => rfl
  | cons hd t ih =>
      obtain ⟨k', v'⟩ := hd
      by_cases hs : strStarts k' c = true
      · simp [List.filter, hs, ih]
      · have hk : k' ≠ k := fun he => hs (he ▸ h)
        simp [List.filter, hs, lookupA, hk, ih]

theorem lookupA_filter_kept {α : Type} (l : List (String × α)) (c k : String)
    (h : strStarts k c = false) :
    lookupA (l.filter (fun p => !(strStarts p.1 c))) k = lookupA l k := by
  induction l with
  | nil => rfl
  | cons hd t ih =>
      obtain ⟨k', v'⟩ := hd
      by_cases hk : k' = k
      · subst hk
        simp [List.filter, h, lookupA]
      · by_cases hs : strStarts k' c = true <;>
          simp [List.filter, hs, lookupA, hk, ih]

/-! ## Claim theorems -/

/-- Claim C9: `get_backoff_delay` is a pure function of the attempt
number equal to `min(base * 2^(attempt-1), cap)` for every attempt ≥ 1,
with `get_backoff_delay 1 = base`, results never exceeding the cap, and
monotonicity in the attempt number. -/
theorem claim9_backoff (a b : Nat) (_ha : 1 ≤ a) (hab : a ≤ b) :
    get_backoff_delay a = min (base_backoff * 2 ^ (a - 1)) max_backoff ∧
    get_backoff_delay 1 = base_backoff ∧
    get_backoff_delay a ≤ max_backoff ∧
    get_backoff_delay a ≤ get_backoff_delay b := by
  refine ⟨rfl, ?_, min_le_right _ _, ?_⟩
  · simp [get_backoff_delay, base_backoff, max_backoff]
  · unfold get_backoff_delay
    refine min_le_min ?_ le_rfl
    have h2 : (1 : ℚ) ≤ 2 := one_le_two
    have := pow_le_pow_right₀ h2 (Nat.sub_le_sub_right hab 1)
    calc base_backoff * 2 ^ (a - 1) ≤ base_backoff * 2 ^ (b - 1) := by
          unfold base_backoff; linarith

/-- Witness for `claim9_backoff` at attempts 2 and 5. -/
theorem claim9_backoff_witness :
    get_backoff_delay 2 = min (base_backoff * 2 ^ (2 - 1)) max_backoff ∧
    get_backoff_delay 1 = base_backoff ∧
    get_backoff_delay 2 ≤ max_backoff ∧
    get_backoff_delay 2 ≤ get_backoff_delay 5 :=
  claim9_backoff 2 5 (by norm_num) (by norm_num)

/-- Claim C2: for every error kind and attempt count, when the circuit
breaker does not intervene, `_get_recovery_action` returns
RESTART_COMPONENT (for stream_error / file_not_found) or FATAL_EXIT once
the per-kind maximum (table value, default 3) is exceeded; within
budget, RETRY_IMMEDIATE exactly for stream_error at attempt 1, and
RETRY_WITH_BACKOFF in all other cases. -/
theorem claim2_recovery_action (k : String) (n : Nat) :
    (max_attempts_for k < n →
        get_recovery_action k n =
          (if k = "stream_error" ∨ k = "file_not_found" then
            RecoveryAction.RESTART_COMPONENT
           else RecoveryAction.FATAL_EXIT)) ∧
    (n ≤ max_attempts_for k →
        get_recovery_action k n =
          (if k = "stream_error" ∧ n = 1 then RecoveryAction.RETRY_IMMEDIATE
           else RecoveryAction.RETRY_WITH_BACKOFF)) := by
  constructor
  · intro h
    unfold get_recovery_action
    rw [if_pos h]
  · intro h
    unfold get_recovery_action
    rw [if_neg (by omega)]
    by_cases hs : k = "stream_error"
    · by_cases h1 : n = 1 <;> simp [hs, h1]
    · simp only [if_neg hs]
      have : (if k = "stream_error" ∧ n = 1 then RecoveryAction.RETRY_IMMEDIATE
              else RecoveryAction.RETRY_WITH_BACKOFF) = RecoveryAction.RETRY_WITH_BACKOFF := by
        simp [hs]
      rw [this]
      split
      · rfl
      · split <;> rfl

/-- Witness for `claim2_recovery_action`: stream_error over budget at
attempt 4, and stream_error within budget at attempt 2. -/
theorem claim2_recovery_action_witness :
    get_recovery_action "stream_error" 4 =
      (if "stream_error" = "stream_error" ∨ "stream_error" = "file_not_found" then
        RecoveryAction.RESTART_COMPONENT
       else RecoveryAction.FATAL_EXIT) ∧
    get_recovery_action "stream_error" 2 =
      (if "stream_error" = "stream_error" ∧ 2 = 1 then RecoveryAction.RETRY_IMMEDIATE
       else RecoveryAction.RETRY_WITH_BACKOFF) :=
  ⟨(claim2_recovery_action "stream_error" 4).1 (by decide),
   (claim2_recovery_action "stream_error" 2).2 (by decide)⟩

/-- Claim C1: at open time, if the persisted inode equals the file's
current inode and the persisted position is at most the current size,
`_ensure_file_open` seeks to the persisted position (and records it as
the in-memory offset); in every other case — inode differs, inode is
null, or position exceeds size — it seeks to end-of-file. -/
theorem claim1_resume_decision (ci fs sp : Nat) (si : Option Nat) :
    (si = some ci ∧ sp ≤ fs →
        ensure_file_open ci fs sp si =
          { last_position := sp, state_position := sp,
            state_inode := some ci, resumed := true }) ∧
    (¬(si = some ci ∧ sp ≤ fs) →
        ensure_file_open ci fs sp si =
          { last_position := fs, state_position := fs,
            state_inode := some ci, resumed := false }) := by
  constructor <;> intro h <;> simp [ensure_file_open, h]

/-- Witness for `claim1_resume_decision`: a matching inode with a valid
position resumes at 40; a null saved inode seeks to the end (size 100). -/
theorem claim1_resume_decision_witness :
    ensure_file_open 7 100 40 (some 7) =
      { last_position := 40, state_position := 40,
        state_inode := some 7, resumed := true } ∧
    ensure_file_open 7 100 40 none =
      { last_position := 100, state_position := 100,
        state_inode := some 7, resumed := false } :=
  ⟨(claim1_resume_decision 7 100 40 (some 7)).1 (by decide),
   (claim1_resume_decision 7 100 40 none).2 (by decide)⟩

/-- Claim C6: `detect_rotation` returns true when the watched path no
longer exists, when the freshly statted inode differs from the inode of
the currently open file (a genuine inode, i.e. positive), when the file
size has dropped below the read offset minus the 1000-byte slack, and
when the stat raises; it returns false when the inode is unchanged and
the size is at least the current offset. -/
theorem claim6_detect_rotation (p : String) (path_exists : Bool)
    (stat_result : Option (Nat × Nat)) (ci : Option Nat)
    (has_file : Bool) (pos : Nat) :
    (path_exists = false →
        detect_rotation (some p) path_exists stat_result ci has_file pos = true) ∧
    (stat_result = none →
        detect_rotation (some p) path_exists stat_result ci has_file pos = true) ∧
    (∀ (i ino size : Nat), ci = some i → 0 < i → ino ≠ i →
        detect_rotation (some p) path_exists (some (ino, size)) ci has_file pos = true) ∧
    (∀ (ino size : Nat), has_file = true → (size : Int) < (pos : Int) - 1000 →
        detect_rotation (some p) path_exists (some (ino, size)) ci has_file pos = true) ∧
    (∀ (i size : Nat), ci = some i → path_exists = true → p ≠ "" → pos ≤ size →
        detect_rotation (some p) path_exists (some (i, size)) ci has_file pos = false) := by
  refine ⟨?_, ?_, ?_, ?_, ?_⟩
  · intro h
    simp [detect_rotation, h]
  · intro h
    subst h
    by_cases hp : p = "" <;> by_cases he : path_exists = false <;>
      simp [detect_rotation, hp, he]
  · intro i ino size hci hi hne
    subst hci
    by_cases hp : p = "" <;> by_cases he : path_exists = false <;>
      simp [detect_rotation, inode_truthy, hp, he, hne]
    exact Or.inl (by omega)
  · intro ino size hf hsz
    by_cases hp : p = "" <;> by_cases he : path_exists = false <;>
      simp [detect_rotation, hp, he]
    exact Or.inr ⟨hf, hsz⟩
  · intro i size hci he hp hpos
    subst hci
    have hsz : ¬ ((size : Int) < (pos : Int) - 1000) := by omega
    simp [detect_rotation, hp, he, inode_truthy, hsz]

/-- Witness for `claim6_detect_rotation`: the watched path
"/var/log/app.log" with open inode 5 at offset 4000 — a stat failure, an
inode change to 9, a size collapse to 100, and the unchanged-inode
size-8000 non-rotation case. -/
theorem claim6_detect_rotation_witness :
    detect_rotation (some "/var/log/app.log") false none (some 5) true 4000 = true ∧
    detect_rotation (some "/var/log/app.log") true none (some 5) true 4000 = true ∧
    detect_rotation (some "/var/log/app.log") true (some (9, 8000)) (some 5) true 4000 = true ∧
    detect_rotation (some "/var/log/app.log") true (some (5, 100)) (some 5) true 4000 = true ∧
    detect_rotation (some "/var/log/app.log") true (some (5, 8000)) (some 5) true 4000 = false :=
  ⟨(claim6_detect_rotation "/var/log/app.log" false none (some 5) true 4000).1 rfl,
   (claim6_detect_rotation "/var/log/app.log" true none (some 5) true 4000).2.1 rfl,
   (claim6_detect_rotation "/var/log/app.log" true (some (9, 8000)) (some 5) true 4000).2.2.1
     5 9 8000 rfl (by decide) (by decide),
   (claim6_detect_rotation "/var/log/app.log" true (some (5, 100)) (some 5) true 4000).2.2.2.1
     5 100 rfl (by decide),
   (claim6_detect_rotation "/var/log/app.log" true (some (5, 8000)) (some 5) true 4000).2.2.2.2
     5 8000 rfl rfl (by decide) (by decide)⟩

/-- Claim C7: `load_state` tries the primary path and then the backup in
that order, adopting the first structurally valid file; if the primary
is missing or corrupt but the backup is valid, the loaded state is
exactly the backup's content; if neither is usable, the fresh default
state installed by `__init__` is kept and no error escapes (the function
is total and merely returns `false`). -/
theorem claim7_load_fallback (primary backup : StateFile) (d : PersistedState) (now : Nat) :
    (primary = StateFile.valid d →
        state_manager_init primary backup now = (watcher_state_of d now, true)) ∧
    ((primary = StateFile.missing ∨ primary = StateFile.corrupt) →
      backup = StateFile.valid d →
        state_manager_init primary backup now = (watcher_state_of d now, true)) ∧
    ((primary = StateFile.missing ∨ primary = StateFile.corrupt) →
     (backup = StateFile.missing ∨ backup = StateFile.corrupt) →
        state_manager_init primary backup now = (default_state now, false)) := by
  refine ⟨?_, ?_, ?_⟩
  · intro h
    subst h
    rfl
  · intro hp hb
    subst hb
    rcases hp with h | h <;> subst h <;> rfl
  · intro hp hb
    rcases hp with h | h <;> rcases hb with h' | h' <;> subst h <;> subst h' <;> rfl

/-- Witness for `claim7_load_fallback`: a concrete persisted state is
recovered from the backup when the primary is corrupt, and the default
state is used when both files are missing. -/
theorem claim7_load_fallback_witness :
    state_manager_init StateFile.corrupt
        (StateFile.valid (persisted_of (default_state 3))) 17 =
      (watcher_state_of (persisted_of (default_state 3)) 17, true) ∧
    state_manager_init StateFile.missing StateFile.missing 17 =
      (default_state 17, false) :=
  ⟨(claim7_load_fallback StateFile.corrupt
      (StateFile.valid (persisted_of (default_state 3)))
      (persisted_of (default_state 3)) 17).2.1 (Or.inr rfl) rfl,
   (claim7_load_fallback StateFile.missing StateFile.missing
      (persisted_of (default_state 3)) 17).2.2 (Or.inl rfl) (Or.inl rfl)⟩

/-- Claim C8: saving a watcher state and loading it back yields the same
state field-for-field, including the nested circuit-breaker map and the
opaque collaborator-owned fields (alert cooldown map, error-rate
window). The hypothesis `startup_time ≠ 0` holds for every state the
program constructs, since `__post_init__` stamps a zero `startup_time`
with the (nonzero) current wall-clock time. -/
theorem claim8_save_load_roundtrip (s cur : WatcherState) (b : StateFile) (now : Nat)
    (h : s.startup_time ≠ 0) :
    load_state (StateFile.valid (persisted_of s)) b now cur = (s, true) := by
  unfold load_state
  obtain ⟨pool, alerts, window, fpos, fino, cbs, hc, st⟩ := s
  simp only [watcher_state_of, persisted_of, Option.getD_some] at *
  simp [h]

/-- Witness for `claim8_save_load_roundtrip` on a state with a nonempty
breaker map, alert-cooldown map and error-rate window. -/
theorem claim8_save_load_roundtrip_witness :
    load_state
      (StateFile.valid (persisted_of
        { current_pool := some "blue",
          last_alert_times := [("error_rate", 500)],
          error_rate_window := [[("is_error", "true")]],
          file_position := 1234,
          file_inode := some 42,
          circuit_breaker_states :=
            [("file_manager",
              { is_open := true, failure_count := 5, last_failure_time := 90,
                last_success_time := 10, next_attempt_time := 150 })],
          last_health_check := 91,
          startup_time := 7 }))
      StateFile.missing 1000 (default_state 1000) =
      ({ current_pool := some "blue",
         last_alert_times := [("error_rate", 500)],
         error_rate_window := [[("is_error", "true")]],
         file_position := 1234,
         file_inode := some 42,
         circuit_breaker_states :=
           [("file_manager",
             { is_open := true, failure_count := 5, last_failure_time := 90,
               last_success_time := 10, next_attempt_time := 150 })],
         last_health_check := 91,
         startup_time := 7 }, true) :=
  claim8_save_load_roundtrip _ _ StateFile.missing 1000 (by decide)

/-- Claim C10 (code bug): the code comments say the offset is persisted
"every 50 lines", but the test is `last_position % 50 == 0` — a
condition on the byte value of the offset, not on progress.  Reading ten
50-byte lines from offset 0 checkpoints after every single line, and the
same ten lines read from offset 1 checkpoint never, so there is no fixed
per-N-lines (or per-N-bytes) cadence and checkpoints do happen on every
line. -/
theorem claim10_checkpoint_cadence_bug :
    (read_line_offsets 0 (List.replicate 10 50)).all (fun p => p.2) = true ∧
    checkpoints 0 (List.replicate 10 50) = 10 ∧
    checkpoints 1 (List.replicate 10 50) = 0 := by
  refine ⟨?_, ?_, ?_⟩ <;> decide

/-- An open breaker for component "tailer" whose half-open deadline is
time 10. -/
def cb_open10 : CircuitBreakerState :=
  { is_open := true, failure_count := 5, last_failure_time := 0,
    last_success_time := 0, next_attempt_time := 10 }

def st_c3 : EHState := ⟨[], [("tailer", cb_open10)]⟩

/-- Claim C3 counterexample: with the breaker for "tailer" open and its
deadline at time 10, the `is_circuit_open` call at time 10 returns false
but leaves the state completely unchanged — the breaker is still marked
open, so no open→half-open transition happened as a side effect — and
the next call (time 11), with no success or failure in between, returns
false again, so false is not returned "exactly once". -/
theorem claim3_counterexample :
    (is_circuit_open st_c3 "tailer" 10).1 = false ∧
    (is_circuit_open st_c3 "tailer" 10).2 = st_c3 ∧
    (lookupA (is_circuit_open st_c3 "tailer" 10).2.breakers "tailer").map
        CircuitBreakerState.is_open = some true ∧
    (is_circuit_open (is_circuit_open st_c3 "tailer" 10).2 "tailer" 11).1 = false := by
  refine ⟨?_, ?_, ?_, ?_⟩ <;> decide

/-- Claim C3 amended: while the breaker is open, `is_circuit_open`
returns true exactly as long as the current time is before
`next_attempt_time`; from the deadline on it returns false — on that and
every subsequent call — and it never mutates the breaker (the actual
open→half-open mutation is performed inside `_should_circuit_break` on
the failure-handling path, not by this probe). -/
theorem claim3_amended (st : EHState) (c : String) (now : Nat)
    (cb : CircuitBreakerState)
    (h : lookupA st.breakers c = some cb) (hopen : cb.is_open = true) :
    (now < cb.next_attempt_time → (is_circuit_open st c now).1 = true) ∧
    (cb.next_attempt_time ≤ now → (is_circuit_open st c now).1 = false) ∧
    (is_circuit_open st c now).2 = st := by
  have hred : is_circuit_open st c now =
      (if cb.is_open = true ∧ now ≥ cb.next_attempt_time then (false, st)
       else (cb.is_open, st)) := by
    unfold is_circuit_open get_circuit_breaker
    rw [h]
  refine ⟨?_, ?_, ?_⟩
  · intro hlt
    rw [hred, if_neg (fun hc => absurd hc.2 (by omega))]
    exact hopen
  · intro hge
    rw [hred, if_pos ⟨hopen, hge⟩]
  · rw [hred]
    split <;> rfl

/-- Witness for `claim3_amended` on `st_c3`: true at time 5, false at
times 10 and 20, state untouched. -/
theorem claim3_amended_witness :
    (is_circuit_open st_c3 "tailer" 5).1 = true ∧
    (is_circuit_open st_c3 "tailer" 20).1 = false ∧
    (is_circuit_open st_c3 "tailer" 20).2 = st_c3 :=
  ⟨(claim3_amended st_c3 "tailer" 5 cb_open10 (by decide) (by decide)).1 (by decide),
   (claim3_amended st_c3 "tailer" 20 cb_open10 (by decide) (by decide)).2.1 (by decide),
   (claim3_amended st_c3 "tailer" 20 cb_open10 (by decide) (by decide)).2.2⟩

/-- One failure handled for component "file_manager": the state after
`handle_error` with the given classified kind at the given time. -/
def fail_step (st : EHState) (error_type : String) (now : Nat) : EHState :=
  (handle_error st error_type "file_manager" "boom" now).2

/-- Five consecutive stream_error failures on "file_manager" at times
0..4 starting from a fresh handler: the fifth opens the breaker with
deadline 4 + 60 = 64. -/
def st_after5 : EHState :=
  fail_step (fail_step (fail_step (fail_step (fail_step ⟨[], []⟩
    "stream_error" 0) "stream_error" 1) "stream_error" 2) "stream_error" 3)
    "stream_error" 4

/-- A sixth stream_error failure at time 64 (the deadline): handling it
performs the lazy open→half-open flip inside `_should_circuit_break`. -/
def st_half_open : EHState := fail_step st_after5 "stream_error" 64

/-- Claim C4 counterexample: after five stream_error failures the
breaker for "file_manager" is open with deadline 64 and the failure at
time 64 lazily flips it to half-open (is_open = false); yet the very
next failure — kind unknown_error at time 65, with no success in
between — does NOT re-open the breaker (its fresh context has
attempt_count 1 < 5) and returns RETRY_WITH_BACKOFF instead of
re-opening with a new deadline. -/
theorem claim4_counterexample :
    (lookupA st_after5.breakers "file_manager").map CircuitBreakerState.is_open =
      some true ∧
    (lookupA st_after5.breakers "file_manager").map CircuitBreakerState.next_attempt_time =
      some 64 ∧
    (lookupA st_half_open.breakers "file_manager").map CircuitBreakerState.is_open =
      some false ∧
    (lookupA (handle_error st_half_open "unknown_error" "file_manager" "boom" 65).2.breakers
        "file_manager").map CircuitBreakerState.is_open = some false ∧
    (handle_error st_half_open "unknown_error" "file_manager" "boom" 65).1 =
      RecoveryAction.RETRY_WITH_BACKOFF := by
  refine ⟨?_, ?_, ?_, ?_, ?_⟩ <;> decide

/-- The attempt count the next failure of this (component, kind) pair
will reach: the stored context's count (0 when absent) plus one. -/
def streak_attempts (st : EHState) (component error_type : String) : Nat :=
  ((lookupA st.error_contexts (component ++ "_" ++ error_type)).map
    ErrorContext.attempt_count).getD 0

/-- Claim C4 amended: a failure handled while the breaker is closed
(including the half-open state the lazy flip leaves behind) re-opens the
breaker and resets `next_attempt_time` to now + cooldown exactly when
the incremented attempt count of that failure's own (component, kind)
error context reaches the failure threshold (5).  In particular the next
failure of the same kind as the streak that opened the breaker re-opens
it; a failure of a kind with a fresh context does not. -/
theorem claim4_amended (st : EHState) (component error_type msg : String) (now : Nat)
    (cb : CircuitBreakerState)
    (h : lookupA st.breakers component = some cb)
    (hclosed : cb.is_open = false)
    (hth : cb_failure_threshold ≤ streak_attempts st component error_type + 1) :
    (handle_error st error_type component msg now).1 = RecoveryAction.CIRCUIT_BREAKER ∧
    lookupA (handle_error st error_type component msg now).2.breakers component =
      some { cb with is_open := true,
                     failure_count := streak_attempts st component error_type + 1,
                     last_failure_time := now,
                     next_attempt_time := now + cb_timeout } := by
  unfold handle_error get_circuit_breaker
  simp only [h]
  unfold should_circuit_break count_recent_failures
  have hcnt : (((lookupA st.error_contexts (component ++ "_" ++ error_type)).getD
      { error_type := error_type, component := component, attempt_count := 0,
        last_attempt_time := 0, error_message := msg }).attempt_count) + 1 =
      streak_attempts st component error_type + 1 := by
    unfold streak_attempts
    cases lookupA st.error_contexts (component ++ "_" ++ error_type) <;> rfl
  simp only [hclosed, Bool.false_eq_true, if_false, hcnt]
  rw [if_pos hth, if_pos hth]
  exact ⟨rfl, lookupA_updA_self _ _ _⟩

/-- Breaker and context of a component "c" as the lazy half-open flip
leaves them: breaker closed again but the stream_error streak still at
five attempts. -/
def st_c4w : EHState :=
  ⟨[("c_stream_error",
     { error_type := "stream_error", component := "c", attempt_count := 5,
       last_attempt_time := 64, error_message := "boom" })],
   [("c", { is_open := false, failure_count := 5, last_failure_time := 4,
            last_success_time := 0, next_attempt_time := 64 })]⟩

/-- Witness for `claim4_amended`: on `st_c4w` a sixth stream_error
failure at time 65 returns CIRCUIT_BREAKER and re-opens the breaker with
deadline 65 + 60 = 125. -/
theorem claim4_amended_witness :
    (handle_error st_c4w "stream_error" "c" "boom" 65).1 =
      RecoveryAction.CIRCUIT_BREAKER ∧
    lookupA (handle_error st_c4w "stream_error" "c" "boom" 65).2.breakers "c" =
      some { is_open := true, failure_count := streak_attempts st_c4w "c" "stream_error" + 1,
             last_failure_time := 65, last_success_time := 0, next_attempt_time := 125 } :=
  claim4_amended st_c4w "c" "stream_error" "boom" 65
    { is_open := false, failure_count := 5, last_failure_time := 4,
      last_success_time := 0, next_attempt_time := 64 }
    (by decide) (by decide) (by decide)

/-- A handler state with two distinct components whose names share a
prefix — "file" and "file_manager" — plus an open breaker for "tailer".
The breaker for "file" is closed but carries a nonzero failure_count,
exactly the shape the lazy half-open flip leaves behind. -/
def st_c5 : EHState :=
  ⟨[("file_network_error",
     { error_type := "network_error", component := "file", attempt_count := 1,
       last_attempt_time := 5, error_message := "e" }),
    ("file_manager_stream_error",
     { error_type := "stream_error", component := "file_manager", attempt_count := 2,
       last_attempt_time := 6, error_message := "e" })],
   [("file", { is_open := false, failure_count := 3, last_failure_time := 7,
               last_success_time := 0, next_attempt_time := 67 }),
    ("tailer", { is_open := true, failure_count := 5, last_failure_time := 9,
                 last_success_time := 0, next_attempt_time := 69 })]⟩

/-- Claim C5 counterexample: `record_success "file"` on `st_c5` leaves
the (closed) breaker for "file" with failure_count 3 — not zero, because
the code only zeroes the counter when the breaker was open — and it also
deletes the error context of the *different* component "file_manager",
because contexts are discarded by the string-prefix test
`key.startswith(component)` and "file_manager_stream_error" starts with
"file". -/
theorem claim5_counterexample :
    (lookupA (record_success st_c5 "file" 100).breakers "file").map
        CircuitBreakerState.failure_count = some 3 ∧
    lookupA (record_success st_c5 "file" 100).error_contexts
        "file_manager_stream_error" = none := by
  refine ⟨?_, ?_⟩ <;> decide

/-- Claim C5 amended: after `record_success(c)`, a breaker for `c` that
was open is closed with failure_count zero and last_success_time stamped;
a breaker that was already closed is left untouched (its failure_count is
not zeroed); and exactly those error contexts whose key string starts
with `c` are removed — which covers all of `c`'s own entries, but also
removes entries of any other component whose key begins with `c` — while
every other entry is preserved. -/
theorem claim5_amended (st : EHState) (c : String) (now : Nat) :
    (∀ cb, lookupA st.breakers c = some cb → cb.is_open = true →
        lookupA (record_success st c now).breakers c =
          some { cb with is_open := false, failure_count := 0,
                         last_success_time := now }) ∧
    (∀ cb, lookupA st.breakers c = some cb → cb.is_open = false →
        lookupA (record_success st c now).breakers c = some cb) ∧
    (∀ k, strStarts k c = true →
        lookupA (record_success st c now).error_contexts k = none) ∧
    (∀ k, strStarts k c = false →
        lookupA (record_success st c now).error_contexts k =
          lookupA st.error_contexts k) := by
  have hctx : (record_success st c now).error_contexts =
      st.error_contexts.filter (fun p => !(strStarts p.1 c)) := by
    unfold record_success get_circuit_breaker
    cases hl : lookupA st.breakers c <;> rfl
  refine ⟨?_, ?_, ?_, ?_⟩
  · intro cb h hopen
    unfold record_success get_circuit_breaker
    rw [h]
    simp only [hopen, if_true]
    exact lookupA_updA_self _ _ _
  · intro cb h hclosed
    unfold record_success get_circuit_breaker
    rw [h]
    simp only [hclosed, Bool.false_eq_true, if_false]
    exact lookupA_updA_self _ _ _
  · intro k hk
    rw [hctx]
    exact lookupA_filter_removed _ _ _ hk
  · intro k hk
    rw [hctx]
    exact lookupA_filter_kept _ _ _ hk

/-- Witness for `claim5_amended` on `st_c5`: the open "tailer" breaker is
closed and zeroed; the closed "file" breaker is untouched; the "file"
context is removed; an unrelated key is preserved. -/
theorem claim5_amended_witness :
    lookupA (record_success st_c5 "tailer" 100).breakers "tailer" =
      some { is_open := false, failure_count := 0, last_failure_time := 9,
             last_success_time := 100, next_attempt_time := 69 } ∧
    lookupA (record_success st_c5 "file" 100).breakers "file" =
      some { is_open := false, failure_count := 3, last_failure_time := 7,
             last_success_time := 0, next_attempt_time := 67 } ∧
    lookupA (record_success st_c5 "file" 100).error_contexts "file_network_error" =
      none ∧
    lookupA (record_success st_c5 "file" 100).error_contexts "worker_disk_error" =
      lookupA st_c5.error_contexts "worker_disk_error" :=
  ⟨(claim5_amended st_c5 "tailer" 100).1
     { is_open := true, failure_count := 5, last_failure_time := 9,
       last_success_time := 0, next_attempt_time := 69 } (by decide) (by decide),
   (claim5_amended st_c5 "file" 100).2.1
     { is_open := false, failure_count := 3, last_failure_time := 7,
       last_success_time := 0, next_attempt_time := 67 } (by decide) (by decide),
   (claim5_amended st_c5 "file" 100).2.2.1 "file_network_error" (by decide),
   (claim5_amended st_c5 "file" 100).2.2.2 "worker_disk_error" (by decide)⟩

end LogWatcher
